import Mathlib

/-!
Verification of the streamed chat-response reconciliation and session-persistence
protocol of the Gyankosh knowledge-management application.

The definitions below are a shallow embedding of the TypeScript source:
  * `src/hooks/useExcelChatSession.ts` — the session-persistence hook
    (auto-save timer, checkpointing, finalization, stop handling,
    continuation policy);
  * `src/components/ExcelSearchPanel.tsx` — the panel orchestrating one
    question→answer exchange (guard against concurrent sends, the SSE
    stream-decoding loop, stop/error/finalize exit paths, the durable/local
    message merge);
  * the unbuffered SSE decode loop of `handleFileUpload` (document summary
    streaming in the unnamed source part).

Database writes (`supabase.from('chat_messages').update/insert`) are modelled
as pure updates of an in-memory row list; React `useState`/`useRef` cells are
fields of explicit state records, with state updates treated as synchronous
(the app runs in a single-threaded cooperative event loop). UI-only telemetry
(elapsed seconds, ETA, toasts) is omitted except where a claim observes it.
-/

/-- A row of the `chat_messages` table, which is also the shape of the hook's
`ExcelChatMessage` local message state (the local-only `cellReferences` field
is omitted; it never affects content). -/
structure ChatMessage where
  id : String
  role : String
  content : String
  created_at : String
  document_id : Option String
  session_id : String
deriving DecidableEq, Repr

/-- The panel's local `ExcelMessage` shape (`{ id, role, content }`;
`cellReferences` omitted). -/
structure PanelMessage where
  id : String
  role : String
  content : String
deriving DecidableEq, Repr

/-- Content update by message id: the shape shared by the supabase
`update({ content }).eq('id', id)` call (on the row list) and the
`setMessages(prev => prev.map(m => m.id === messageId ? { ...m, content } : m))`
updater (on the local message list). -/
def updContent (l : List ChatMessage) (messageId content : String) : List ChatMessage :=
  l.map (fun m => if m.id == messageId then { m with content := content } else m)

/-- Content of the row with the given id, if any
(`.select('content').eq('id', id)` view of the table). -/
def dbContent (l : List ChatMessage) (messageId : String) : Option String :=
  (l.find? (fun m => m.id == messageId)).map (fun m => m.content)

/-- State of the `useExcelChatSession` hook: the backing `chat_messages` rows
for this session's document, the hook's `messages` state, the auto-save refs
(`pendingAssistantIdRef`, `pendingContentRef`), `lastSavedContent`, whether the
3-second auto-save interval is currently registered, and `sessionId`. -/
structure HookState where
  db : List ChatMessage
  messages : List ChatMessage
  pendingAssistantId : Option String
  pendingContent : String
  lastSavedContent : String
  autoSaveTimerActive : Bool
  sessionId : Option String
deriving DecidableEq, Repr

/-- Function `updateAssistantContent` from useExcelChatSession.ts: store the snapshot in
`pendingContentRef` and update the local message's content. -/
def updateAssistantContent (st : HookState) (messageId content : String) : HookState :=
  { st with
    pendingContent := content,
    messages := updContent st.messages messageId content }

/-- One firing of the 3-second auto-save interval registered by
`startAssistantMessage`: if the interval is still registered, an assistant
message is pending and the pending content is non-empty
(`if (id && content && content.length > 0)`), write the pending content to the
row and record it as `lastSavedContent`. The returned flag reports whether a
database write was issued (write success is assumed: a failed background write
only skips `setLastSavedContent`). -/
def autoSaveTick (st : HookState) : HookState × Bool :=
  if st.autoSaveTimerActive then
    match st.pendingAssistantId with
    | some id =>
      if st.pendingContent ≠ "" then
        ({ st with
            db := updContent st.db id st.pendingContent,
            lastSavedContent := st.pendingContent }, true)
      else (st, false)
    | none => (st, false)
  else (st, false)

/-- Result of `finalizeAssistantMessage`, instrumented with the number of
database update attempts made and whether any user-visible warning was raised
(the source only does `console.error` on failure). -/
structure FinalizeResult where
  state : HookState
  updateAttempts : Nat
  userWarned : Bool
deriving DecidableEq, Repr

/-- Function `finalizeAssistantMessage` from useExcelChatSession.ts, with `writeOk`
modelling whether the single `update({ content: finalContent })` call
succeeds. The source clears the auto-save interval, issues exactly one update,
logs and otherwise ignores an error, then unconditionally sets
`lastSavedContent`, clears the pending refs and rewrites the local message. -/
def finalizeAssistantMessageR (writeOk : Bool) (st : HookState)
    (messageId finalContent : String) : FinalizeResult :=
  let st1 := { st with autoSaveTimerActive := false }
  let st2 :=
    if writeOk then { st1 with db := updContent st1.db messageId finalContent }
    else st1
  { state :=
      { st2 with
        lastSavedContent := finalContent,
        pendingAssistantId := none,
        pendingContent := "",
        messages := updContent st2.messages messageId finalContent },
    updateAttempts := 1,
    userWarned := false }

/-- Function `finalizeAssistantMessage` on the happy path (the update succeeds). -/
def finalizeAssistantMessage (st : HookState) (messageId finalContent : String) : HookState :=
  (finalizeAssistantMessageR true st messageId finalContent).state

/-- The marker appended to the persisted partial content by
`forceSaveProgress`. -/
def dbStopMarker : String := "\n\n⚠️ *Analysis was stopped. Say \"continue\" to resume.*"

/-- The marker appended to the panel's local copy by `handleStopAnalysis`
(note: worded differently from `dbStopMarker`). -/
def uiStopMarker : String := "\n\n⚠️ *Analysis stopped. Say \"continue\" to resume from here.*"

/-- Function `forceSaveProgress` from useExcelChatSession.ts: clear the auto-save
interval; if an assistant message is pending and more than 3 characters have
accumulated (`if (id && content && content.length > 3)`), persist
`content + stop marker` and record `lastSavedContent = content`; finally clear
the pending refs. The write is assumed to succeed. The hook's `messages` state
is not touched. -/
def forceSaveProgress (st : HookState) : HookState :=
  let st1 := { st with autoSaveTimerActive := false }
  let st2 :=
    match st1.pendingAssistantId with
    | some id =>
      if st1.pendingContent ≠ "" ∧ st1.pendingContent.length > 3 then
        { st1 with
          db := updContent st1.db id (st1.pendingContent ++ dbStopMarker),
          lastSavedContent := st1.pendingContent }
      else st1
    | none => st1
  { st2 with pendingAssistantId := none, pendingContent := "" }

/-- ASCII lower-casing of one character (the JS `toLowerCase` restricted to
the character ranges that occur in queries and in the keyword vocabulary;
the Devanagari keyword has no case). -/
def charToLower (c : Char) : Char :=
  if 'A' ≤ c ∧ c ≤ 'Z' then Char.ofNat (c.toNat + 32) else c

/-- JavaScript `s.toLowerCase()` (ASCII range). -/
def jsToLowerCase (s : String) : String := String.mk (s.toList.map charToLower)

/-- JavaScript `s.trim()`: strip leading and trailing whitespace. -/
def jsTrim (s : String) : String :=
  String.mk (((s.toList.dropWhile Char.isWhitespace).reverse.dropWhile
    Char.isWhitespace).reverse)

/-- The fixed continuation vocabulary of `shouldContinue`. -/
def continueKeywords : List String :=
  ["continue", "resume", "go on", "keep going", "carry on", "proceed", "जारी"]

/-- Test that `needle` is a leading segment of `hay` (character lists). -/
def listHasPref (needle hay : List Char) : Bool :=
  match needle, hay with
  | [], _ => true
  | _ :: _, [] => false
  | a :: as, b :: bs => a == b && listHasPref as bs

/-- Test that `needle` occurs contiguously somewhere in `hay` (character lists). -/
def listHasSub (needle hay : List Char) : Bool :=
  match hay with
  | [] => needle.isEmpty
  | _ :: t => listHasPref needle hay || listHasSub needle t

/-- JavaScript `s.includes(kw)`: substring containment. -/
def strIncludes (s kw : String) : Bool := listHasSub kw.toList s.toList

/-- Function `shouldContinue` from useExcelChatSession.ts:
`continueKeywords.some(kw => userQuery.toLowerCase().trim().includes(kw))`. -/
def shouldContinue (userQuery : String) : Bool :=
  let lowerQuery := jsTrim (jsToLowerCase userQuery)
  continueKeywords.any (fun kw => strIncludes lowerQuery kw)

/-- JavaScript `s.slice(-n)` for `0 < n ≤ s.length`: the last `n` characters. -/
def sliceLast (s : String) (n : Nat) : String :=
  String.mk (s.toList.drop (s.length - n))

/-- Function `getContinueContext` from useExcelChatSession.ts: `null` when
`!lastSavedContent || lastSavedContent.length < 50`, otherwise the last
`min 2000 length` characters of the last saved content. -/
def getContinueContext (lastSavedContent : String) : Option String :=
  if lastSavedContent = "" ∨ lastSavedContent.length < 50 then none
  else
    let contextLength := min 2000 lastSavedContent.length
    some (sliceLast lastSavedContent contextLength)

/-- Projection used by the panel's merge:
`dbMessages.map(m => ({ id: m.id, role: m.role, content: m.content }))`. -/
def projectRow (m : ChatMessage) : PanelMessage :=
  { id := m.id, role := m.role, content := m.content }

/-- The panel's displayed list (`ExcelSearchPanel.tsx`):
`dbMessages.length > 0 ? dbMessages.map(...) : localMessages`. -/
def displayMessages (dbMessages : List ChatMessage)
    (localMessages : List PanelMessage) : List PanelMessage :=
  if dbMessages.length > 0 then dbMessages.map projectRow else localMessages

-- Basic facts about `updContent` and `dbContent`.

theorem updContent_updContent (l : List ChatMessage) (messageId c c' : String) :
    updContent (updContent l messageId c) messageId c' = updContent l messageId c' := by
  induction l with
  | nil => rfl
  | cons m t ih =>
    simp only [updContent, List.map_cons] at ih ⊢
    rw [ih]
    by_cases h : m.id == messageId
    · simp [h]
    · simp [h]

theorem any_id_updContent (l : List ChatMessage) (messageId c j : String) :
    (updContent l messageId c).any (fun r => r.id == j) = l.any (fun r => r.id == j) := by
  induction l with
  | nil => rfl
  | cons m t ih =>
    simp only [updContent, List.map_cons, List.any_cons] at ih ⊢
    rw [ih]
    by_cases h : m.id == messageId
    · simp [h]
    · simp [h]

theorem dbContent_updContent_self (l : List ChatMessage) (messageId c : String)
    (h : l.any (fun r => r.id == messageId) = true) :
    dbContent (updContent l messageId c) messageId = some c := by
  induction l with
  | nil => simp at h
  | cons m t ih =>
    simp only [List.any_cons, Bool.or_eq_true] at h
    by_cases hm : (m.id == messageId) = true
    · simp only [updContent, List.map_cons, if_pos hm, dbContent]
      rw [List.find?_cons_of_pos _ (by simpa using hm)]
      simp
    · simp only [updContent, List.map_cons, if_neg hm]
      have h' : t.any (fun r => r.id == messageId) = true := by
        rcases h with h | h
        · exact absurd h hm
        · exact h
      have ih' := ih h'
      unfold dbContent at ih' ⊢
      rw [List.find?_cons_of_neg _ (by simpa using hm)]
      exact ih'

theorem stringMk_toList (s : String) : String.mk s.toList = s := rfl

theorem stringToList_length (s : String) : s.toList.length = s.length := rfl

theorem stringToList_mk (l : List Char) : (String.mk l).toList = l := rfl

-- ResumptionPolicy -----------------------------------------------------------

/-- C5 counterexample: `shouldContinue` is a substring test, not a membership
test. The input "discontinue" is already trimmed and lower-cased, is not a
member of the continuation vocabulary, yet `shouldContinue` accepts it because
it contains "continue" as a substring. -/
theorem shouldContinue_not_membership :
    shouldContinue "discontinue" = true ∧
    "discontinue" ∉ continueKeywords ∧
    jsTrim (jsToLowerCase "discontinue") = "discontinue" := by
  refine ⟨by decide, by decide, by decide⟩

/-- C5 (amended): `shouldContinue` returns true iff the trimmed, lower-cased
input contains one of the fixed continuation phrases as a substring. -/
theorem shouldContinue_iff_contains_keyword (q : String) :
    shouldContinue q = true ↔
      ∃ kw ∈ continueKeywords, strIncludes (jsTrim (jsToLowerCase q)) kw = true := by
  simp [shouldContinue, List.any_eq_true]

/-- Witness for C5's amended theorem at a concrete input. -/
theorem shouldContinue_iff_contains_keyword_witness :
    shouldContinue "Please continue" = true :=
  (shouldContinue_iff_contains_keyword "Please continue").mpr
    ⟨"continue", by decide, by decide⟩

/-- C6: the continuation seed is `none` below the 50-character minimum; for a
checkpoint of 50 to 1999 characters it is the whole checkpoint; for a
checkpoint of at least 2000 characters it is exactly the last 2000 characters
(a length-2000 string such that the checkpoint is the remaining prefix
followed by it, character for character). -/
theorem getContinueContext_trailing_slice (s : String) :
    (s.length < 50 → getContinueContext s = none) ∧
    (50 ≤ s.length → s.length < 2000 → getContinueContext s = some s) ∧
    (2000 ≤ s.length → ∃ r, getContinueContext s = some r ∧ r.toList.length = 2000 ∧
      s.toList = s.toList.take (s.length - 2000) ++ r.toList) := by
  refine ⟨?_, ?_, ?_⟩
  · intro h
    simp [getContinueContext, h]
  · intro h1 h2
    have hne : ¬(s = "" ∨ s.length < 50) := by
      rintro (rfl | hlt)
      · simp at h1
      · omega
    simp only [getContinueContext, if_neg hne]
    rw [Nat.min_eq_right (Nat.le_of_lt h2)]
    simp [sliceLast, stringMk_toList]
  · intro h
    have hne : ¬(s = "" ∨ s.length < 50) := by
      rintro (rfl | hlt)
      · simp at h
      · omega
    refine ⟨sliceLast s 2000, ?_, ?_, ?_⟩
    · simp only [getContinueContext, if_neg hne]
      rw [Nat.min_eq_left h]
    · simp only [sliceLast, stringToList_mk]
      rw [List.length_drop, stringToList_length]
      omega
    · simp only [sliceLast, stringToList_mk]
      rw [List.take_append_drop]

theorem stringMk_length (l : List Char) : (String.mk l).length = l.length := rfl

/-- Witness for C6 at concrete inputs: a short checkpoint yields no seed; a
60-character checkpoint is returned whole; a 2500-character checkpoint yields
a seed of exactly 2000 characters. -/
theorem getContinueContext_trailing_slice_witness :
    getContinueContext "ab" = none ∧
    getContinueContext (String.mk (List.replicate 60 'a')) =
      some (String.mk (List.replicate 60 'a')) ∧
    ∃ r, getContinueContext (String.mk (List.replicate 2500 'a')) = some r ∧
      r.toList.length = 2000 := by
  have h60 : (String.mk (List.replicate 60 'a')).length = 60 := by
    rw [stringMk_length, List.length_replicate]
  have h2500 : (String.mk (List.replicate 2500 'a')).length = 2500 := by
    rw [stringMk_length, List.length_replicate]
  refine ⟨?_, ?_, ?_⟩
  · exact (getContinueContext_trailing_slice "ab").1 (by decide)
  · exact (getContinueContext_trailing_slice _).2.1 (by omega) (by omega)
  · obtain ⟨r, hr1, hr2, _⟩ :=
      (getContinueContext_trailing_slice (String.mk (List.replicate 2500 'a'))).2.2
        (by omega)
    exact ⟨r, hr1, hr2⟩

-- MessageReconciler ----------------------------------------------------------

/-- C10: the displayed list is all-or-nothing between the durable store and
the local buffer: with at least one durable message the display is exactly
the projected durable list (so it contains no locally-buffered message that
is not a projection of a durable row), with an empty durable list it is
exactly the local buffer, and it always equals one of the two. -/
theorem displayMessages_all_or_nothing (db : List ChatMessage) (lm : List PanelMessage) :
    (db ≠ [] → displayMessages db lm = db.map projectRow ∧
      ∀ m ∈ displayMessages db lm, ∃ d ∈ db, m = projectRow d) ∧
    (db = [] → displayMessages db lm = lm) ∧
    (displayMessages db lm = db.map projectRow ∨ displayMessages db lm = lm) := by
  refine ⟨?_, ?_, ?_⟩
  · intro hne
    have hlen : db.length > 0 := List.length_pos.mpr hne
    constructor
    · simp [displayMessages, hlen]
    · intro m hm
      simp only [displayMessages, if_pos hlen] at hm
      obtain ⟨d, hd, rfl⟩ := List.mem_map.mp hm
      exact ⟨d, hd, rfl⟩
  · intro h
    subst h
    simp [displayMessages]
  · by_cases h : db.length > 0
    · left; simp [displayMessages, h]
    · right; simp [displayMessages, h]

/-- Witness for C10: a one-row durable list hides the local welcome message;
an empty durable list shows it. -/
theorem displayMessages_all_or_nothing_witness :
    displayMessages [⟨"m1", "assistant", "hello", "t1", none, "s1"⟩] [⟨"w1", "assistant", "welcome"⟩]
      = [⟨"m1", "assistant", "hello"⟩] ∧
    displayMessages [] [⟨"w1", "assistant", "welcome"⟩] = [⟨"w1", "assistant", "welcome"⟩] := by
  constructor
  · exact ((displayMessages_all_or_nothing
      [⟨"m1", "assistant", "hello", "t1", none, "s1"⟩] [⟨"w1", "assistant", "welcome"⟩]).1
      (by decide)).1
  · exact (displayMessages_all_or_nothing
      [] [⟨"w1", "assistant", "welcome"⟩]).2.1 rfl

-- StreamingConversationController: checkpointing ------------------------------

/-- One controller-side event during streaming: either a new accumulator
snapshot is pushed via `updateAssistantContent`, or the 3-second auto-save
interval fires. -/
inductive CheckpointOp where
  | update (content : String)
  | tick
deriving DecidableEq, Repr

/-- Apply one streaming event for the pending assistant message `id`. -/
def applyOp (st : HookState) (messageId : String) : CheckpointOp → HookState
  | .update c => updateAssistantContent st messageId c
  | .tick => (autoSaveTick st).1

/-- A streaming phase: any interleaving of snapshot updates and auto-save
timer firings for the message `id`. -/
def runOps (st : HookState) (messageId : String) (ops : List CheckpointOp) : HookState :=
  ops.foldl (fun s op => applyOp s messageId op) st

/-- Function `finalizeAssistantMessage` written out as a single record. -/
theorem finalize_eq (st : HookState) (messageId c : String) :
    finalizeAssistantMessage st messageId c =
      { db := updContent st.db messageId c,
        messages := updContent st.messages messageId c,
        pendingAssistantId := none,
        pendingContent := "",
        lastSavedContent := c,
        autoSaveTimerActive := false,
        sessionId := st.sessionId } := rfl

theorem tick_pendingId (st : HookState) :
    (autoSaveTick st).1.pendingAssistantId = st.pendingAssistantId := by
  by_cases ht : st.autoSaveTimerActive
  · cases hid : st.pendingAssistantId with
    | none => simp [autoSaveTick, ht, hid]
    | some j => by_cases hc : st.pendingContent = "" <;> simp [autoSaveTick, ht, hid, hc]
  · simp [autoSaveTick, ht]

theorem finalize_after_update (st : HookState) (messageId c final : String) :
    finalizeAssistantMessage (updateAssistantContent st messageId c) messageId final
      = finalizeAssistantMessage st messageId final := by
  simp [finalize_eq, updateAssistantContent, updContent_updContent]

theorem finalize_after_tick (st : HookState) (messageId final : String)
    (hp : st.pendingAssistantId = some messageId) :
    finalizeAssistantMessage (autoSaveTick st).1 messageId final
      = finalizeAssistantMessage st messageId final := by
  by_cases ht : st.autoSaveTimerActive
  · by_cases hc : st.pendingContent = "" <;>
      simp [autoSaveTick, ht, hp, hc, finalize_eq, updContent_updContent]
  · simp [autoSaveTick, ht]

theorem finalize_runOps (st : HookState) (messageId final : String)
    (ops : List CheckpointOp) (hp : st.pendingAssistantId = some messageId) :
    finalizeAssistantMessage (runOps st messageId ops) messageId final
      = finalizeAssistantMessage st messageId final := by
  induction ops generalizing st with
  | nil => rfl
  | cons op rest ih =>
    have hstep : runOps st messageId (op :: rest) = runOps (applyOp st messageId op) messageId rest := by
      simp [runOps]
    have hp' : (applyOp st messageId op).pendingAssistantId = some messageId := by
      cases op with
      | update c => simpa [applyOp, updateAssistantContent] using hp
      | tick => rw [applyOp, tick_pendingId]; exact hp
    rw [hstep, ih _ hp']
    cases op with
    | update c => exact finalize_after_update st messageId c final
    | tick => exact finalize_after_tick st messageId final hp

/-- C2: for any interleaving of accumulator snapshots and auto-save timer
firings for the pending assistant message, finalizing leaves the stored
content exactly equal to the final accumulator value, and the entire end
state is independent of how many (and which) intermediate checkpoints
occurred. -/
theorem checkpointing_idempotent (st : HookState) (messageId final : String)
    (ops ops' : List CheckpointOp)
    (hp : st.pendingAssistantId = some messageId)
    (hd : st.db.any (fun r => r.id == messageId) = true) :
    dbContent (finalizeAssistantMessage (runOps st messageId ops) messageId final).db messageId
        = some final ∧
    finalizeAssistantMessage (runOps st messageId ops) messageId final
      = finalizeAssistantMessage (runOps st messageId ops') messageId final := by
  constructor
  · rw [finalize_runOps st messageId final ops hp, finalize_eq]
    exact dbContent_updContent_self st.db messageId final hd
  · rw [finalize_runOps st messageId final ops hp, finalize_runOps st messageId final ops' hp]

/-- A session state mid-stream: one placeholder assistant row is pending. -/
def c2State : HookState :=
  { db := [⟨"m1", "assistant", "...", "t1", none, "s1"⟩],
    messages := [⟨"m1", "assistant", "", "t1", none, "s1"⟩],
    pendingAssistantId := some "m1",
    pendingContent := "",
    lastSavedContent := "",
    autoSaveTimerActive := true,
    sessionId := some "s1" }

/-- Witness for C2: one checkpoint versus three checkpoints of the same
growing text end in identical states, with the final text stored. -/
theorem checkpointing_idempotent_witness :
    dbContent (finalizeAssistantMessage
        (runOps c2State "m1" [.update "ab", .tick, .update "abcd", .tick, .tick]) "m1" "abcdef").db "m1"
      = some "abcdef" ∧
    finalizeAssistantMessage
        (runOps c2State "m1" [.update "ab", .tick, .update "abcd", .tick, .tick]) "m1" "abcdef"
      = finalizeAssistantMessage (runOps c2State "m1" [.update "abcd", .tick]) "m1" "abcdef" :=
  checkpointing_idempotent c2State "m1" "abcdef"
    [.update "ab", .tick, .update "abcd", .tick, .tick] [.update "abcd", .tick]
    rfl (by decide)

-- C3: what the auto-save timer actually writes --------------------------------

/-- A mid-stream state in which the accumulator has not grown since the last
flush is about to be reproduced: pending content "hello", nothing saved yet. -/
def c3State : HookState :=
  { db := [⟨"m1", "assistant", "...", "t1", none, "s1"⟩],
    messages := [⟨"m1", "assistant", "hello", "t1", none, "s1"⟩],
    pendingAssistantId := some "m1",
    pendingContent := "hello",
    lastSavedContent := "",
    autoSaveTimerActive := true,
    sessionId := some "s1" }

/-- C3 counterexample: after one timer firing has flushed "hello"
(`lastSavedContent = pendingContent = "hello"`, so content has not grown since
the last flush), the next firing still issues a database write. -/
theorem autoSaveTick_redundant_write :
    (autoSaveTick c3State).1.lastSavedContent = "hello" ∧
    (autoSaveTick c3State).1.pendingContent = "hello" ∧
    (autoSaveTick (autoSaveTick c3State).1).2 = true := by
  exact ⟨by decide, by decide, by decide⟩

/-- C3 (amended): a timer firing issues a database write exactly when the
interval is registered, an assistant message is pending and the accumulator is
non-empty — with no comparison against the previously flushed value; when it
writes, it writes the whole current accumulator value, and when it does not
write the state is untouched. -/
theorem autoSaveTick_write_condition (st : HookState) :
    ((autoSaveTick st).2 = true ↔
      st.autoSaveTimerActive = true ∧ st.pendingAssistantId.isSome = true ∧
        st.pendingContent ≠ "") ∧
    ((autoSaveTick st).2 = false → (autoSaveTick st).1 = st) ∧
    (∀ messageId, st.pendingAssistantId = some messageId → (autoSaveTick st).2 = true →
      st.db.any (fun r => r.id == messageId) = true →
      dbContent (autoSaveTick st).1.db messageId = some st.pendingContent) := by
  refine ⟨?_, ?_, ?_⟩
  · by_cases ht : st.autoSaveTimerActive
    · cases hid : st.pendingAssistantId with
      | none => simp [autoSaveTick, ht, hid]
      | some j => by_cases hc : st.pendingContent = "" <;> simp [autoSaveTick, ht, hid, hc]
    · simp [autoSaveTick, ht]
  · by_cases ht : st.autoSaveTimerActive
    · cases hid : st.pendingAssistantId with
      | none => simp [autoSaveTick, ht, hid]
      | some j => by_cases hc : st.pendingContent = "" <;> simp [autoSaveTick, ht, hid, hc]
    · simp [autoSaveTick, ht]
  · intro messageId hid htrue hany
    have ht : st.autoSaveTimerActive = true := by
      by_contra h
      simp [autoSaveTick, h] at htrue
    have hc : st.pendingContent ≠ "" := by
      intro h
      simp [autoSaveTick, ht, hid, h] at htrue
    simp only [autoSaveTick, ht, hid, if_true]
    simp only [if_pos hc]
    exact dbContent_updContent_self st.db messageId st.pendingContent hany

/-- Witness for C3's amended theorem: at the concrete mid-stream state, the
write condition holds, a write is issued and it stores the accumulator. -/
theorem autoSaveTick_write_condition_witness :
    (autoSaveTick c3State).2 = true ∧
    dbContent (autoSaveTick c3State).1.db "m1" = some "hello" := by
  have h := autoSaveTick_write_condition c3State
  have h2 : (autoSaveTick c3State).2 = true :=
    (h.1).mpr ⟨by decide, by decide, by decide⟩
  exact ⟨h2, h.2.2 "m1" rfl h2 (by decide)⟩

-- C8: behaviour of the final flush when the write fails ------------------------

/-- A state at the end of streaming, just before the final flush. -/
def c8State : HookState :=
  { db := [⟨"m1", "assistant", "...", "t1", none, "s1"⟩],
    messages := [⟨"m1", "assistant", "partial text", "t1", none, "s1"⟩],
    pendingAssistantId := some "m1",
    pendingContent := "partial text",
    lastSavedContent := "",
    autoSaveTimerActive := true,
    sessionId := some "s1" }

/-- C8 counterexample: when the final flush fails, the code makes exactly one
update attempt (no retry) and raises no user-visible warning; the durable row
still holds the placeholder. -/
theorem finalize_failure_not_retried :
    (finalizeAssistantMessageR false c8State "m1" "the final answer").updateAttempts = 1 ∧
    (finalizeAssistantMessageR false c8State "m1" "the final answer").userWarned = false ∧
    dbContent (finalizeAssistantMessageR false c8State "m1" "the final answer").state.db "m1"
      = some "..." := by
  exact ⟨by decide, by decide, by decide⟩

/-- C8 (amended): if the final flush fails, exactly one write attempt is made,
the error is only logged and the user is not warned; the durable rows are left
unchanged, yet the in-memory message list is still updated to the final
content (so the content stays visible for the session) and `lastSavedContent`
is set to it. -/
theorem finalize_failure_keeps_memory (st : HookState) (messageId c : String) :
    (finalizeAssistantMessageR false st messageId c).updateAttempts = 1 ∧
    (finalizeAssistantMessageR false st messageId c).userWarned = false ∧
    (finalizeAssistantMessageR false st messageId c).state.db = st.db ∧
    (finalizeAssistantMessageR false st messageId c).state.messages
      = updContent st.messages messageId c ∧
    (finalizeAssistantMessageR false st messageId c).state.lastSavedContent = c := by
  exact ⟨rfl, rfl, rfl, rfl, rfl⟩

/-- Witness for C8's amended theorem at the concrete pre-flush state. -/
theorem finalize_failure_keeps_memory_witness :
    (finalizeAssistantMessageR false c8State "m1" "the final answer").state.db = c8State.db ∧
    (finalizeAssistantMessageR false c8State "m1" "the final answer").state.messages
      = updContent c8State.messages "m1" "the final answer" :=
  ⟨(finalize_failure_keeps_memory c8State "m1" "the final answer").2.2.1,
   (finalize_failure_keeps_memory c8State "m1" "the final answer").2.2.2.1⟩

-- ExcelSearchPanel: one exchange ----------------------------------------------

/-- Content update by id on the panel's local `ExcelMessage` list
(`setLocalMessages(prev => prev.map(...))`). -/
def updPanelContent (l : List PanelMessage) (messageId content : String) : List PanelMessage :=
  l.map (fun m => if m.id == messageId then { m with content := content } else m)

/-- State of the `ExcelSearchPanel` component: the hook state, the panel's
`localMessages`, whether an Excel file is loaded, the `isLoading` flag, the
abort controller (`abortControllerRef.current !== null`), the analysis stage
and the panel's own accumulator refs (`currentAssistantIdRef`,
`currentResponseRef`). -/
structure PanelState where
  hook : HookState
  localMessages : List PanelMessage
  excelLoaded : Bool
  isLoading : Bool
  abortActive : Bool
  analysisStage : String
  currentAssistantId : Option String
  currentResponse : String
deriving DecidableEq, Repr

/-- Function `handleStopAnalysis` from ExcelSearchPanel.tsx: if an abort controller is
present, abort and clear it; if an assistant message is current and more than
10 characters have accumulated, run `forceSaveProgress` (which persists
`content + dbStopMarker`) and rewrite the local copy with `uiStopMarker`;
finally reset the loading flag, the stage and the panel's accumulator refs. -/
def handleStopAnalysis (st : PanelState) : PanelState :=
  if st.abortActive then
    let st0 := { st with abortActive := false }
    let st1 :=
      match st0.currentAssistantId with
      | some aid =>
        if st0.currentResponse.length > 10 then
          { st0 with
            hook := forceSaveProgress st0.hook,
            localMessages :=
              updPanelContent st0.localMessages aid (st0.currentResponse ++ uiStopMarker) }
        else st0
      | none => st0
    { st1 with
      isLoading := false,
      analysisStage := "preparing",
      currentAssistantId := none,
      currentResponse := "" }
  else st

/-- The synchronous prefix of `handleSend` from ExcelSearchPanel.tsx: the
guard `if (!input.trim() || !excel || isLoading) return;`, then installation
of a fresh abort controller and the stage reset. `setIsLoading(true)` is NOT
part of this phase: the source first does `await saveUserMessage(userQuery)` —
a network suspension point during which other submissions can run — and only
afterwards runs `setInput(''); setIsLoading(true)` (lines 277–284). The
returned flag reports whether the submission passed the guard. -/
def handleSendPhase1 (st : PanelState) (input : String) : PanelState × Bool :=
  if jsTrim input = "" ∨ st.excelLoaded = false ∨ st.isLoading = true then (st, false)
  else
    ({ st with
        abortActive := true,
        analysisStage := "preparing" }, true)

/-- The resumption of `handleSend` after the awaited `saveUserMessage` round
trip: `setInput('')` and `setIsLoading(true)`; the streaming request is issued
only after this point. -/
def handleSendPhase2 (st : PanelState) : PanelState :=
  { st with isLoading := true }

/-- The `catch`/`finally` exit of `handleSend` on a thrown non-abort error:
an error message is appended to `localMessages`, then the `finally` block
resets the loading flag, the abort controller and the stage. Neither block
touches the hook's auto-save interval or pending refs. -/
def handleSendErrorExit (st : PanelState) (errId errText : String) : PanelState :=
  { st with
    localMessages :=
      st.localMessages ++ [⟨errId, "assistant", "❌ Error: " ++ errText⟩],
    isLoading := false,
    abortActive := false,
    analysisStage := "preparing" }

/-- The normal end of `handleSend`: `finalizeAssistantMessage` with the full
response, the panel refs are cleared, then the `finally` block resets the
loading flag, the abort controller and the stage. -/
def handleSendFinalizeExit (st : PanelState) (messageId finalContent : String) : PanelState :=
  { st with
    hook := finalizeAssistantMessage st.hook messageId finalContent,
    currentAssistantId := none,
    currentResponse := "",
    isLoading := false,
    abortActive := false,
    analysisStage := "preparing" }

-- C4: stop behaviour ----------------------------------------------------------

/-- A streaming exchange in which exactly one short delta ("hi") has arrived. -/
def c4State : PanelState :=
  { hook :=
      { db := [⟨"m1", "assistant", "...", "t1", none, "s1"⟩],
        messages := [⟨"m1", "assistant", "hi", "t1", none, "s1"⟩],
        pendingAssistantId := some "m1",
        pendingContent := "hi",
        lastSavedContent := "",
        autoSaveTimerActive := true,
        sessionId := some "s1" },
    localMessages := [⟨"m1", "assistant", "hi"⟩],
    excelLoaded := true,
    isLoading := true,
    abortActive := true,
    analysisStage := "streaming",
    currentAssistantId := some "m1",
    currentResponse := "hi" }

/-- C4 counterexample: content has arrived (the accumulator holds "hi"), yet
stopping persists nothing — the stored row keeps the "..." placeholder instead
of the accumulated text followed by the stop marker, because the stop path
only saves when more than 10 characters have accumulated. -/
theorem handleStop_short_content_not_saved :
    c4State.currentResponse ≠ "" ∧
    dbContent (handleStopAnalysis c4State).hook.db "m1" = some "..." ∧
    dbContent (handleStopAnalysis c4State).hook.db "m1" ≠
      some (c4State.currentResponse ++ dbStopMarker) := by
  exact ⟨by decide, by decide, by decide⟩

/-- Function `forceSaveProgress` written out as a single record when its guard holds. -/
theorem forceSaveProgress_eq (st : HookState) (aid : String)
    (hid : st.pendingAssistantId = some aid)
    (hc : st.pendingContent ≠ "") (hl : st.pendingContent.length > 3) :
    forceSaveProgress st =
      { st with
        db := updContent st.db aid (st.pendingContent ++ dbStopMarker),
        lastSavedContent := st.pendingContent,
        autoSaveTimerActive := false,
        pendingAssistantId := none,
        pendingContent := "" } := by
  simp [forceSaveProgress, hid, hc, hl]

/-- C4 (amended): stopping an exchange with more than 10 accumulated
characters persists `accumulated_text ++ dbStopMarker` to the store and
rewrites the panel's local buffer with `accumulated_text ++ uiStopMarker` —
two differently worded markers — while the hook's durable-message view (which
the display prefers whenever durable messages exist) is left unchanged, i.e.
still showing the unmarked pre-stop text; the loading flag and the auto-save
interval are cleared. Exchanges with 10 or fewer accumulated characters are
not saved at all on stop. -/
theorem handleStop_saves_with_marker (st : PanelState) (aid t : String)
    (h1 : st.abortActive = true)
    (h2 : st.currentAssistantId = some aid)
    (h3 : st.currentResponse = t)
    (h4 : 10 < t.length)
    (h5 : st.hook.pendingAssistantId = some aid)
    (h6 : st.hook.pendingContent = t)
    (h7 : st.hook.db.any (fun r => r.id == aid) = true) :
    dbContent (handleStopAnalysis st).hook.db aid = some (t ++ dbStopMarker) ∧
    (handleStopAnalysis st).localMessages
      = updPanelContent st.localMessages aid (t ++ uiStopMarker) ∧
    (handleStopAnalysis st).hook.messages = st.hook.messages ∧
    (handleStopAnalysis st).hook.autoSaveTimerActive = false ∧
    (handleStopAnalysis st).isLoading = false ∧
    dbStopMarker ≠ uiStopMarker := by
  have ht : t ≠ "" := by
    intro h
    subst h
    simp at h4
  have hfse := forceSaveProgress_eq st.hook aid h5 (by rw [h6]; exact ht)
    (by rw [h6]; omega)
  have hstop : handleStopAnalysis st =
      { st with
        abortActive := false,
        hook := forceSaveProgress st.hook,
        localMessages := updPanelContent st.localMessages aid (t ++ uiStopMarker),
        isLoading := false,
        analysisStage := "preparing",
        currentAssistantId := none,
        currentResponse := "" } := by
    simp [handleStopAnalysis, h1, h2, h3, h4]
  rw [hstop]
  refine ⟨?_, rfl, ?_, ?_, rfl, by decide⟩
  · show dbContent (forceSaveProgress st.hook).db aid = some (t ++ dbStopMarker)
    rw [hfse]
    show dbContent (updContent st.hook.db aid (st.hook.pendingContent ++ dbStopMarker)) aid
      = some (t ++ dbStopMarker)
    rw [h6]
    exact dbContent_updContent_self st.hook.db aid (t ++ dbStopMarker) h7
  · show (forceSaveProgress st.hook).messages = st.hook.messages
    rw [hfse]
  · show (forceSaveProgress st.hook).autoSaveTimerActive = false
    rw [hfse]

/-- A streaming exchange with a long accumulated response. -/
def c4LongState : PanelState :=
  { hook :=
      { db := [⟨"m1", "assistant", "...", "t1", none, "s1"⟩],
        messages := [⟨"m1", "assistant", "a long partial answer", "t1", none, "s1"⟩],
        pendingAssistantId := some "m1",
        pendingContent := "a long partial answer",
        lastSavedContent := "",
        autoSaveTimerActive := true,
        sessionId := some "s1" },
    localMessages := [⟨"m1", "assistant", "a long partial answer"⟩],
    excelLoaded := true,
    isLoading := true,
    abortActive := true,
    analysisStage := "streaming",
    currentAssistantId := some "m1",
    currentResponse := "a long partial answer" }

/-- Witness for C4's amended theorem at a concrete long-content stop. -/
theorem handleStop_saves_with_marker_witness :
    dbContent (handleStopAnalysis c4LongState).hook.db "m1"
      = some ("a long partial answer" ++ dbStopMarker) ∧
    (handleStopAnalysis c4LongState).hook.autoSaveTimerActive = false :=
  ⟨(handleStop_saves_with_marker c4LongState "m1" "a long partial answer"
      rfl rfl rfl (by decide) rfl rfl (by decide)).1,
   (handleStop_saves_with_marker c4LongState "m1" "a long partial answer"
      rfl rfl rfl (by decide) rfl rfl (by decide)).2.2.2.1⟩

-- C7: at most one exchange in flight ------------------------------------------

/-- An idle panel with a loaded Excel file. -/
def c7State : PanelState :=
  { hook :=
      { db := [], messages := [], pendingAssistantId := none, pendingContent := "",
        lastSavedContent := "", autoSaveTimerActive := false, sessionId := some "s1" },
    localMessages := [],
    excelLoaded := true,
    isLoading := false,
    abortActive := false,
    analysisStage := "preparing",
    currentAssistantId := none,
    currentResponse := "" }

/-- C7: the guard reads `isLoading` at entry, but `isLoading` is set only
after the awaited user-message persistence. A first submission passes the
guard and leaves `isLoading` still false; a second submission arriving during
that await therefore also passes the guard and starts a second concurrent
exchange (the two then share the panel's and the hook's single set of
accumulator refs). Only once `setIsLoading(true)` has run — in particular
during streaming — is a further submission rejected. -/
theorem second_submission_passes_guard_during_await :
    (handleSendPhase1 c7State "first question").2 = true ∧
    (handleSendPhase1 c7State "first question").1.isLoading = false ∧
    (handleSendPhase1 (handleSendPhase1 c7State "first question").1
      "second question").2 = true ∧
    (handleSendPhase1 (handleSendPhase2 (handleSendPhase1 c7State "first question").1)
      "second question").2 = false := by
  exact ⟨by decide, by decide, by decide, by decide⟩

-- C9: the auto-save timer on the exit paths ------------------------------------

/-- A streaming exchange (auto-save interval active) about to fail with a
network error. -/
def c9State : PanelState :=
  { hook :=
      { db := [⟨"m1", "assistant", "...", "t1", none, "s1"⟩],
        messages := [⟨"m1", "assistant", "partial analysis", "t1", none, "s1"⟩],
        pendingAssistantId := some "m1",
        pendingContent := "partial analysis",
        lastSavedContent := "",
        autoSaveTimerActive := true,
        sessionId := some "s1" },
    localMessages := [⟨"m1", "assistant", "partial analysis"⟩],
    excelLoaded := true,
    isLoading := true,
    abortActive := true,
    analysisStage := "streaming",
    currentAssistantId := some "m1",
    currentResponse := "partial analysis" }

/-- A streaming exchange stopped after only two characters arrived. -/
def c9ShortState : PanelState :=
  { hook :=
      { db := [⟨"m1", "assistant", "...", "t1", none, "s1"⟩],
        messages := [⟨"m1", "assistant", "hi", "t1", none, "s1"⟩],
        pendingAssistantId := some "m1",
        pendingContent := "hi",
        lastSavedContent := "",
        autoSaveTimerActive := true,
        sessionId := some "s1" },
    localMessages := [⟨"m1", "assistant", "hi"⟩],
    excelLoaded := true,
    isLoading := true,
    abortActive := true,
    analysisStage := "streaming",
    currentAssistantId := some "m1",
    currentResponse := "hi" }

/-- C9: the network-error exit path never clears the 3-second auto-save
interval (and the leftover interval keeps issuing writes of the stale pending
content); the explicit-stop path also leaves it running when 10 or fewer
characters had accumulated; only the normal finalization path clears it. -/
theorem autosave_timer_survives_error_exit :
    (handleSendErrorExit c9State "e1" "network failure").hook.autoSaveTimerActive = true ∧
    (autoSaveTick (handleSendErrorExit c9State "e1" "network failure").hook).2 = true ∧
    (handleStopAnalysis c9ShortState).hook.autoSaveTimerActive = true ∧
    (handleSendFinalizeExit c9State "m1" "done").hook.autoSaveTimerActive = false := by
  exact ⟨by decide, by decide, by decide, by decide⟩

-- StreamDecoder: the SSE decode loops -----------------------------------------

/-- JavaScript `s.split('\n')` on character lists. -/
def splitOnNewline (l : List Char) : List (List Char) :=
  match l with
  | [] => [[]]
  | c :: t =>
    let r := splitOnNewline t
    if c = '\n' then [] :: r
    else
      match r with
      | [] => [[c]]
      | h :: t2 => (c :: h) :: t2

/-- JavaScript `s.startsWith(p)`. -/
def strStartsWith (s p : String) : Bool := listHasPref p.toList s.toList

/-- JavaScript `s.endsWith(p)`. -/
def strEndsWith (s p : String) : Bool := listHasPref p.toList.reverse s.toList.reverse

/-- JavaScript `s.slice(n)` for `n ≥ 0`: drop the first `n` characters. -/
def strDrop (s : String) (n : Nat) : String := String.mk (s.toList.drop n)

/-- A parsed gateway event: `choices[0].delta.content` and
`choices[0].finish_reason`. -/
structure SSEFrame where
  content : Option String
  finishReason : Option String
deriving DecidableEq, Repr

/-- Opening text of a content-delta frame. -/
def deltaPref : String := "\x7b\"choices\":[\x7b\"delta\":\x7b\"content\":\""

/-- Closing text of a content-delta frame. -/
def deltaSuff : String := "\"\x7d\x7d]\x7d"

/-- The finish frame emitted by the gateway. -/
def finishFrame : String :=
  "\x7b\"choices\":[\x7b\"delta\":\x7b\x7d,\"finish_reason\":\"stop\"\x7d]\x7d"

/-- Modelled from the gateway's wire format: `JSON.parse` of one `data: `
payload followed by the `choices?.[0]?.delta?.content` and
`choices?.[0]?.finish_reason` accesses, restricted to the two frame shapes the
gateway emits (a content delta without escape sequences, and the finish
frame). A truncated frame — the result of a chunk boundary falling inside the
JSON object — is not one of these shapes and parses to `none`, exactly as
`JSON.parse` throws on truncated JSON. -/
def parseFrame (s : String) : Option SSEFrame :=
  if s = finishFrame then some ⟨none, some "stop"⟩
  else if strStartsWith s deltaPref ∧ strEndsWith s deltaSuff ∧
      deltaPref.length + deltaSuff.length ≤ s.length then
    let mid := String.mk ((s.toList.drop deltaPref.length).take
      (s.length - deltaPref.length - deltaSuff.length))
    if mid.toList.all (fun c => c ≠ '"' ∧ c ≠ '\\') then some ⟨some mid, none⟩
    else none
  else none

/-- The stream-decoding loop of `handleFileUpload` (document summarization):
each decoded chunk is split on newlines **with no carry-over buffer between
chunks**; a line starting with `data: ` that is not the `[DONE]` sentinel is
JSON-parsed, a parse failure is skipped, and a truthy
`choices?.[0]?.delta?.content` is appended to `fullResponse`. Chunks are the
text produced by `decoder.decode(value, { stream: true })`, which never splits
a multi-byte character across chunks. -/
def handleFileUploadLoop (chunks : List String) : String :=
  chunks.foldl
    (fun fullResponse chunk =>
      ((splitOnNewline chunk.toList).map String.mk).foldl
        (fun acc line =>
          if strStartsWith line "data: " ∧ line ≠ "data: [DONE]" then
            match parseFrame (strDrop line 6) with
            | some f =>
              match f.content with
              | some c => if c ≠ "" then acc ++ c else acc
              | none => acc
            | none => acc
          else acc)
        fullResponse)
    ""

/-- Loop state of `handleSend`'s stream decoder in ExcelSearchPanel.tsx:
the carry-over line buffer, the accumulated response and the `sawDone` flag. -/
structure SendLoopState where
  buffer : String
  fullResponse : String
  sawDone : Bool
deriving DecidableEq, Repr

/-- The inner `for (const raw of parts)` loop of `handleSend`: trim the line,
skip blank lines, stop at `data: [DONE]`, ignore non-`data: ` lines, JSON-parse
the payload (a failure is ignored), record a `finish_reason` as done, append a
truthy content delta, and break once done. -/
def processSendLines (st : SendLoopState) : List String → SendLoopState
  | [] => st
  | raw :: rest =>
    let line := jsTrim raw
    if line = "" then processSendLines st rest
    else if line = "data: [DONE]" then { st with sawDone := true }
    else if ¬ strStartsWith line "data: " then processSendLines st rest
    else
      let st2 :=
        match parseFrame (strDrop line 6) with
        | some f =>
          let stA := if f.finishReason.isSome then { st with sawDone := true } else st
          match f.content with
          | some c =>
            if c ≠ "" then { stA with fullResponse := stA.fullResponse ++ c } else stA
          | none => stA
        | none => st
      if st2.sawDone then st2 else processSendLines st2 rest

/-- One iteration of `handleSend`'s `while (true)` read loop on a decoded
chunk: append to the carry-over buffer, split on newlines, keep the trailing
partial line in the buffer (`buffer = parts.pop() ?? ''`), and process the
complete lines; once `sawDone` is set the reader is cancelled and later chunks
are not processed. -/
def handleSendChunk (st : SendLoopState) (chunkText : String) : SendLoopState :=
  if st.sawDone then st
  else
    let buffer := st.buffer ++ chunkText
    let parts := splitOnNewline buffer.toList
    let newBuffer := String.mk (parts.getLast?.getD [])
    processSendLines { st with buffer := newBuffer } (parts.dropLast.map String.mk)

/-- The stream-decoding loop of `handleSend` in ExcelSearchPanel.tsx over a
sequence of decoded chunks. -/
def handleSendLoop (chunks : List String) : String :=
  (chunks.foldl handleSendChunk ⟨"", "", false⟩).fullResponse

/-- A well-formed two-line SSE stream carrying one delta "Hello". -/
def c1Stream : String := "data: " ++ deltaPref ++ "Hello" ++ deltaSuff ++ "\ndata: [DONE]\n"

/-- The same stream cut mid-JSON-line, after "He". -/
def c1Chunk1 : String := "data: " ++ deltaPref ++ "He"

/-- The rest of the cut stream. -/
def c1Chunk2 : String := "llo" ++ deltaSuff ++ "\ndata: [DONE]\n"

/-- C1: decoding the well-formed stream as one chunk yields "Hello", but the
`handleFileUpload` loop run on a partition that splits the JSON line yields ""
— the delta is lost, because that loop keeps no carry-over buffer between
chunks, so both halves of the split line fail to parse. The `handleSend` loop,
which does keep a carry-over buffer, yields "Hello" on both deliveries of the
same bytes. -/
theorem fileUploadLoop_drops_split_frame :
    c1Chunk1 ++ c1Chunk2 = c1Stream ∧
    handleFileUploadLoop [c1Stream] = "Hello" ∧
    handleFileUploadLoop [c1Chunk1, c1Chunk2] = "" ∧
    handleSendLoop [c1Stream] = "Hello" ∧
    handleSendLoop [c1Chunk1, c1Chunk2] = "Hello" := by
  exact ⟨by decide, by decide, by decide, by decide, by decide⟩
